import Mathlib

/-!
Shallow embedding of the IntelliBank / IntelliSOC backend
(`server-no-db.js`): JSON-file-backed collections of sessions, login
attempts, behavioral event logs and per-IP reputation records, together
with the request handlers that mutate and query them.

Modelling conventions:
* ISO timestamp strings are modelled as `Int` milliseconds since epoch;
  each handler invocation receives a single `now` argument standing for
  the wall clock during that invocation.
* Each JSON file is a `List` of records; `readJSON`/`writeJSON` become
  explicit state passing.  A `writeOk : Bool` argument models whether the
  underlying file write succeeds (the source's `writeJSON` catches any
  error and returns `false`, never throwing).
* JS objects become structures; absent (`undefined`) fields become
  `Option`; `deviceInfo?.x` becomes `Option.bind`.
-/

namespace IntelliBank

/-- Outcome argument passed to `updateIPReputation` ('success' / 'failure'). -/
inductive LoginResult where
  | success
  | failure
deriving DecidableEq, Repr

/-- The `attempt_status` field of a login-attempt record. -/
inductive AttemptStatus where
  | SUCCESS
  | FAILURE
deriving DecidableEq, Repr

/-- The `deviceInfo.browser` object; only `userAgent` is read by the backend. -/
structure BrowserInfo where
  userAgent : Option String
deriving DecidableEq, Repr

/-- The `deviceInfo` object sent by the client; fields the backend reads. -/
structure DeviceInfo where
  fingerprint : Option String
  browser : Option BrowserInfo
  screen : Option String
  timezone : Option String
  referrer : Option String
  currentUrl : Option String
deriving DecidableEq, Repr

/-- A record of `users.json`; fields not consulted by the handlers
(email, full name, balance) are omitted. -/
structure User where
  user_id : Nat
  username : String
  password : String
deriving DecidableEq, Repr

/-- A record of `sessions.json`, as pushed by the login handler. -/
structure Session where
  session_id : String
  user_id : Nat
  session_token : String
  device_fingerprint : Option String
  ip_address : String
  user_agent : Option String
  created_at : Int
  expires_at : Int
  is_active : Bool
deriving DecidableEq, Repr

/-- A record of `login_attempts.json`, as pushed by the login handler. -/
structure LoginAttempt where
  attempt_id : Nat
  timestamp : Int
  username : String
  user_id : Option Nat
  session_id : String
  ip_address : String
  device_fingerprint : Option String
  user_agent : Option String
  password_length : Nat
  remember_me : Bool
  attempt_status : AttemptStatus
  failure_reason : Option String
deriving DecidableEq, Repr

/-- A record of `ip_reputation.json`. -/
structure ReputationRecord where
  ip_address : String
  reputation_score : Int
  total_logins : Nat
  failed_logins : Nat
  successful_logins : Nat
  suspicious_activities : Nat
  first_seen : Int
  last_seen : Int
  is_blocked : Bool
deriving DecidableEq, Repr

/-- One element of the `events` array of a `/api/log/batch` request body,
or the body of a single `/api/log/event` request. -/
structure EventInput where
  timestamp : Option Int
  sessionId : String
  eventType : String
  eventData : Option String
  deviceInfo : Option DeviceInfo
deriving DecidableEq, Repr

/-- A record of `event_logs.json`. -/
structure EventLog where
  log_id : Nat
  timestamp : Int
  session_id : String
  user_id : Option Nat
  event_type : String
  event_data : Option String
  ip_address : String
  device_fingerprint : Option String
  browser_info : Option BrowserInfo
  screen_info : Option String
  timezone_info : Option String
  referrer : Option String
  current_url : Option String
deriving DecidableEq, Repr

/-! ## Durable store -/

/-- The source's `writeJSON(filepath, data)`: tries to overwrite the whole
file with `data` and returns `true`; on any error it logs and returns
`false` (it never throws).  `ok` models whether the underlying
`fs.writeFile` succeeds; the first component is the resulting on-disk
state, the second is `writeJSON`'s return value. -/
def writeJSON {α : Type} (store : List α) (data : List α) (ok : Bool) :
    List α × Bool :=
  if ok then (data, true) else (store, false)

/-! ## Reputation engine (`updateIPReputation`) -/

/-- The record pushed by `updateIPReputation` when no record for
`ipAddress` exists yet (the `else` branch): initial score 95 on success,
90 on failure; counters split by the outcome; `first_seen` and
`last_seen` both set to now. -/
def freshReputation (ipAddress : String) (result : LoginResult) (now : Int) :
    ReputationRecord where
  ip_address := ipAddress
  reputation_score := if result = .success then 95 else 90
  total_logins := 1
  failed_logins := if result = .success then 0 else 1
  successful_logins := if result = .success then 1 else 0
  suspicious_activities := if result = .success then 0 else 1
  first_seen := now
  last_seen := now
  is_blocked := false

/-- The in-place mutation `updateIPReputation` performs on an existing
record: increment `total_logins`; on success increment
`successful_logins` and set score to `min (score + 1) 100`; on failure
increment `failed_logins` and `suspicious_activities` and set score to
`max (score - 5) 0`; finally update `last_seen`. -/
def updateExisting (r : ReputationRecord) (result : LoginResult) (now : Int) :
    ReputationRecord :=
  let r1 := { r with total_logins := r.total_logins + 1 }
  let r2 :=
    match result with
    | .success =>
        { r1 with
          successful_logins := r1.successful_logins + 1
          reputation_score := min (r1.reputation_score + 1) 100 }
    | .failure =>
        { r1 with
          failed_logins := r1.failed_logins + 1
          suspicious_activities := r1.suspicious_activities + 1
          reputation_score := max (r1.reputation_score - 5) 0 }
  { r2 with last_seen := now }

/-- The source's `updateIPReputation(ipAddress, result)` acting on the
`ip_reputation` collection: `findIndex` locates the first record with
this `ip_address` and it is updated in place (`ipReputations[ipIndex] =
ip`); if none matches, a fresh record is pushed at the end.  The
first-match-update-else-append loop is written as structural recursion. -/
def updateIPReputation (reps : List ReputationRecord) (ipAddress : String)
    (result : LoginResult) (now : Int) : List ReputationRecord :=
  match reps with
  | [] => [freshReputation ipAddress result now]
  | r :: rest =>
      if r.ip_address == ipAddress then updateExisting r result now :: rest
      else r :: updateIPReputation rest ipAddress result now

/-- The lookup `ipReputations.find(item => item.ip_address === ip)` used by
`GET /api/analytics/ip-reputation/:ip`. -/
def lookupIP (reps : List ReputationRecord) (ipAddress : String) :
    Option ReputationRecord :=
  reps.find? (fun r => r.ip_address == ipAddress)

/-- Applying a whole sequence of observations (result, now) for one source
address to the reputation collection, starting from no record at all. -/
def runObservations (ipAddress : String) (obs : List (LoginResult × Int)) :
    List ReputationRecord :=
  obs.foldl (fun reps o => updateIPReputation reps ipAddress o.1 o.2) []

/-- The reputation-record invariant claimed by the spec: counter
consistency and the score bounds. -/
def repInvariant (r : ReputationRecord) : Prop :=
  r.total_logins = r.successful_logins + r.failed_logins ∧
    0 ≤ r.reputation_score ∧ r.reputation_score ≤ 100

instance (r : ReputationRecord) : Decidable (repInvariant r) := by
  unfold repInvariant; infer_instance

/-! ## Attempt ledger (login handler, lines 206-243) -/

/-- The `attemptRecord` object built by the login handler:
`attempt_id: loginAttempts.length + 1`, the request fields, and the
status / failure reason assigned before the push. -/
def mkAttemptRecord (loginAttempts : List LoginAttempt) (username : String)
    (userId : Option Nat) (sessionId : String) (deviceInfo : Option DeviceInfo)
    (passwordLength : Nat) (rememberMe : Bool) (ipAddress : String) (now : Int)
    (status : AttemptStatus) (failureReason : Option String) : LoginAttempt where
  attempt_id := loginAttempts.length + 1
  timestamp := now
  username := username
  user_id := userId
  session_id := sessionId
  ip_address := ipAddress
  device_fingerprint := deviceInfo.bind (fun d => d.fingerprint)
  user_agent := (deviceInfo.bind (fun d => d.browser)).bind (fun b => b.userAgent)
  password_length := passwordLength
  remember_me := rememberMe
  attempt_status := status
  failure_reason := failureReason

/-- `loginAttempts.push(attemptRecord)`: the ledger after recording one
attempt. -/
def recordAttempt (loginAttempts : List LoginAttempt) (username : String)
    (userId : Option Nat) (sessionId : String) (deviceInfo : Option DeviceInfo)
    (passwordLength : Nat) (rememberMe : Bool) (ipAddress : String) (now : Int)
    (status : AttemptStatus) (failureReason : Option String) :
    List LoginAttempt :=
  loginAttempts ++
    [mkAttemptRecord loginAttempts username userId sessionId deviceInfo
      passwordLength rememberMe ipAddress now status failureReason]

/-- Maximum `attempt_id` present in the ledger (0 when empty). -/
def maxAttemptId (loginAttempts : List LoginAttempt) : Nat :=
  loginAttempts.foldl (fun m a => max m a.attempt_id) 0

/-- The attempt-ledger states the program can produce: the empty initial
file, grown only by `recordAttempt` appends. -/
inductive ReachableAttempts : List LoginAttempt → Prop where
  | nil : ReachableAttempts []
  | step {l : List LoginAttempt} (username : String) (userId : Option Nat)
      (sessionId : String) (deviceInfo : Option DeviceInfo)
      (passwordLength : Nat) (rememberMe : Bool) (ipAddress : String)
      (now : Int) (status : AttemptStatus) (failureReason : Option String) :
      ReachableAttempts l →
      ReachableAttempts (recordAttempt l username userId sessionId deviceInfo
        passwordLength rememberMe ipAddress now status failureReason)

/-! ## Session registry -/

/-- The session record pushed on a successful login: token and
`expires_at = Date.now() + 24*60*60*1000`; `is_active: true`. -/
def mkSuccessSession (user : User) (sessionId : String)
    (deviceInfo : Option DeviceInfo) (ipAddress : String) (now : Int)
    (sessionToken : String) : Session where
  session_id := sessionId
  user_id := user.user_id
  session_token := sessionToken
  device_fingerprint := deviceInfo.bind (fun d => d.fingerprint)
  ip_address := ipAddress
  user_agent := (deviceInfo.bind (fun d => d.browser)).bind (fun b => b.userAgent)
  created_at := now
  expires_at := now + 24 * 60 * 60 * 1000
  is_active := true

/-- The session lookup used by the event endpoints:
`sessions.find(s => s.session_id === sessionId)`. -/
def findSession (sessions : List Session) (sessionId : String) :
    Option Session :=
  sessions.find? (fun s => s.session_id == sessionId)

/-- The session lookup as the specification describes it: among the
records with this `session_id` that are active, the most recently created
one (sessions are appended in creation order, so that is the last such
record); none if no active record matches.  Stated from the spec's words,
for comparison with `findSession`. -/
def findSessionSpecified (sessions : List Session) (sessionId : String) :
    Option Session :=
  (sessions.filter (fun s => s.session_id == sessionId && s.is_active)).getLast?

/-! ## Event recorder -/

/-- The log entry built by `POST /api/log/event`:
`log_id: eventLogs.length + 1`, `user_id` resolved via the session
lookup, `timestamp || now`. -/
def mkSingleLogEntry (eventLogs : List EventLog) (sessions : List Session)
    (e : EventInput) (ipAddress : String) (now : Int) : EventLog where
  log_id := eventLogs.length + 1
  timestamp := e.timestamp.getD now
  session_id := e.sessionId
  user_id := (findSession sessions e.sessionId).map (fun s => s.user_id)
  event_type := e.eventType
  event_data := e.eventData
  ip_address := ipAddress
  device_fingerprint := e.deviceInfo.bind (fun d => d.fingerprint)
  browser_info := e.deviceInfo.bind (fun d => d.browser)
  screen_info := e.deviceInfo.bind (fun d => d.screen)
  timezone_info := e.deviceInfo.bind (fun d => d.timezone)
  referrer := e.deviceInfo.bind (fun d => d.referrer)
  current_url := e.deviceInfo.bind (fun d => d.currentUrl)

/-- Minimal HTTP response model: status code plus the `status` field of
the JSON body. -/
structure ApiResponse where
  httpStatus : Nat
  status : String
deriving DecidableEq, Repr

/-- The `POST /api/log/event` handler: builds the entry, pushes it,
calls `writeJSON` (whose Boolean result it never inspects) and responds
201 success.  Returns the response and the resulting on-disk collection. -/
def logEventHandler (sessions : List Session) (eventLogs : List EventLog)
    (e : EventInput) (ipAddress : String) (now : Int) (writeOk : Bool) :
    ApiResponse × List EventLog :=
  let entry := mkSingleLogEntry eventLogs sessions e ipAddress now
  let newLogs := eventLogs ++ [entry]
  let written := writeJSON eventLogs newLogs writeOk
  (⟨201, "success"⟩, written.1)

/-- The log entry built inside the `POST /api/log/batch` loop:
`log_id: eventLogs.length + loggedCount + 1`, where `eventLogs` is the
array as it stands at that iteration (it grows with each push). -/
def mkBatchLogEntry (eventLogs : List EventLog) (loggedCount : Nat)
    (sessions : List Session) (e : EventInput) (ipAddress : String)
    (now : Int) : EventLog :=
  { mkSingleLogEntry eventLogs sessions e ipAddress now with
      log_id := eventLogs.length + loggedCount + 1 }

/-- The `for (const event of events)` loop of `POST /api/log/batch`.
A `none` input models an entry whose per-item processing throws (e.g. a
null element, whose destructuring fails): the `catch` increments
`failedCount` and the loop continues.  A `some` input is appended and
increments `loggedCount`. -/
def batchLoop (sessions : List Session) (ipAddress : String) (now : Int) :
    List (Option EventInput) → List EventLog → Nat → Nat →
    List EventLog × Nat × Nat
  | [], eventLogs, loggedCount, failedCount => (eventLogs, loggedCount, failedCount)
  | none :: rest, eventLogs, loggedCount, failedCount =>
      batchLoop sessions ipAddress now rest eventLogs loggedCount (failedCount + 1)
  | some e :: rest, eventLogs, loggedCount, failedCount =>
      let entry := mkBatchLogEntry eventLogs loggedCount sessions e ipAddress now
      batchLoop sessions ipAddress now rest (eventLogs ++ [entry])
        (loggedCount + 1) failedCount

/-- `POST /api/log/batch` body processing: run the loop over the events
with both counters starting at 0; the result is the final collection,
`loggedCount` and `failedCount` (reported as `eventsLogged` /
`failedEvents`). -/
def processBatch (sessions : List Session) (eventLogs : List EventLog)
    (events : List (Option EventInput)) (ipAddress : String) (now : Int) :
    List EventLog × Nat × Nat :=
  batchLoop sessions ipAddress now events eventLogs 0 0

/-! ## Analytics (`GET /api/analytics/login-stats`) -/

/-- The `switch (timeRange)` of the stats handler: lookback in hours,
defaulting to 24 for anything but the three known values. -/
def hoursAgoFor (timeRange : String) : Int :=
  if timeRange = "1h" then 1
  else if timeRange = "24h" then 24
  else if timeRange = "7d" then 168
  else 24

/-- `loginAttempts.filter(attempt => new Date(attempt.timestamp) > threshold)`
with `threshold = now - hoursAgo * 60 * 60 * 1000` (strict comparison). -/
def recentAttempts (loginAttempts : List LoginAttempt) (timeRange : String)
    (now : Int) : List LoginAttempt :=
  loginAttempts.filter
    (fun a => decide (now - hoursAgoFor timeRange * 60 * 60 * 1000 < a.timestamp))

/-- One per-status block of the stats response: `count`, `unique_ips`
(`new Set(...).size` over `ip_address`) and `unique_users` (over
`username`). -/
structure Bucket where
  count : Nat
  unique_ips : Nat
  unique_users : Nat
deriving DecidableEq, Repr

/-- Build the bucket for one `attempt_status` from the filtered attempts;
JS `Set.size` over a list of strings is the number of distinct elements,
i.e. `dedup.length`. -/
def mkBucket (recent : List LoginAttempt) (status : AttemptStatus) : Bucket :=
  let xs := recent.filter (fun a => a.attempt_status == status)
  { count := xs.length
    unique_ips := (xs.map (fun a => a.ip_address)).dedup.length
    unique_users := (xs.map (fun a => a.username)).dedup.length }

/-- The stats response body: a bucket for SUCCESS and one for FAILURE. -/
structure LoginStats where
  SUCCESS : Bucket
  FAILURE : Bucket
deriving DecidableEq, Repr

/-- The whole `GET /api/analytics/login-stats` computation. -/
def loginStats (loginAttempts : List LoginAttempt) (timeRange : String)
    (now : Int) : LoginStats :=
  let recent := recentAttempts loginAttempts timeRange now
  { SUCCESS := mkBucket recent .SUCCESS
    FAILURE := mkBucket recent .FAILURE }

/-- Componentwise order on buckets, used to compare time ranges. -/
def bucketLe (b1 b2 : Bucket) : Prop :=
  b1.count ≤ b2.count ∧ b1.unique_ips ≤ b2.unique_ips ∧
    b1.unique_users ≤ b2.unique_users

/-! ## Login handler (`POST /api/auth/login`) -/

/-- Everything the login handler leaves behind: the HTTP response, the
three collections it may have touched, and the session record it pushed
(if any). -/
structure LoginOutcome where
  response : ApiResponse
  loginAttempts : List LoginAttempt
  sessions : List Session
  ipReputations : List ReputationRecord
  sessionCreated : Option Session
deriving DecidableEq, Repr

/-- The `POST /api/auth/login` handler.  Validation (`!username ||
!password`, i.e. empty strings) returns 400 touching nothing.  Otherwise
the user is looked up by username; a missing user or wrong password
records a FAILURE attempt with the corresponding `failure_reason`,
updates reputation with 'failure' and returns 401; a match records a
SUCCESS attempt, pushes a session expiring 24h from now, updates
reputation with 'success' and returns 200.  `sessionToken` stands for
the `crypto.randomBytes(32).toString('hex')` value. -/
def loginHandler (users : List User) (loginAttempts : List LoginAttempt)
    (sessions : List Session) (ipReputations : List ReputationRecord)
    (username passwordArg : String) (deviceInfo : Option DeviceInfo)
    (sessionId : String) (rememberMe : Bool) (ipAddress : String) (now : Int)
    (sessionToken : String) : LoginOutcome :=
  if username = "" ∨ passwordArg = "" then
    ⟨⟨400, "error"⟩, loginAttempts, sessions, ipReputations, none⟩
  else
    match users.find? (fun u => u.username == username) with
    | none =>
        ⟨⟨401, "error"⟩,
          recordAttempt loginAttempts username none sessionId deviceInfo
            passwordArg.length rememberMe ipAddress now .FAILURE
            (some "user_not_found"),
          sessions,
          updateIPReputation ipReputations ipAddress .failure now, none⟩
    | some u =>
        if u.password ≠ passwordArg then
          ⟨⟨401, "error"⟩,
            recordAttempt loginAttempts username (some u.user_id) sessionId
              deviceInfo passwordArg.length rememberMe ipAddress now .FAILURE
              (some "invalid_password"),
            sessions,
            updateIPReputation ipReputations ipAddress .failure now, none⟩
        else
          let s := mkSuccessSession u sessionId deviceInfo ipAddress now
            sessionToken
          ⟨⟨200, "success"⟩,
            recordAttempt loginAttempts username (some u.user_id) sessionId
              deviceInfo passwordArg.length rememberMe ipAddress now .SUCCESS
              none,
            sessions ++ [s],
            updateIPReputation ipReputations ipAddress .success now, some s⟩

/-! ## Concurrent read-modify-write (lost-update model)

Each request handler persists an append as `readJSON` (snapshot the whole
collection) followed later by `writeJSON` (overwrite the whole file with
the snapshot plus the new record), with no mutual exclusion between
requests.  A request is modelled as a two-step thread; an interleaving is
a list of thread choices. -/

/-- One in-flight append request: `pc = 0` before its read, `pc = 1`
between read and write (holding its snapshot), `pc = 2` done. -/
structure RMWThread (α : Type) where
  pc : Nat
  snapshot : List α
deriving Repr

/-- One step of an append request: at `pc = 0` it snapshots the store
(`readJSON`); at `pc = 1` it overwrites the store with its snapshot plus
its record (`push` then `writeJSON`); afterwards it does nothing. -/
def rmwStep {α : Type} (store : List α) (t : RMWThread α) (record : α) :
    List α × RMWThread α :=
  match t.pc with
  | 0 => (store, ⟨1, store⟩)
  | 1 => (t.snapshot ++ [record], ⟨2, t.snapshot⟩)
  | _ => (store, t)

/-- Run two append requests under an interleaving: `true` steps the first
thread, `false` the second.  Returns the final persisted collection. -/
def runInterleaving {α : Type} (store : List α) (t1 t2 : RMWThread α)
    (r1 r2 : α) : List Bool → List α
  | [] => store
  | c :: cs =>
      if c then
        let p := rmwStep store t1 r1
        runInterleaving p.1 p.2 t2 r1 r2 cs
      else
        let p := rmwStep store t2 r2
        runInterleaving p.1 t1 p.2 r1 r2 cs

/-! ## Sample concrete records (for witnesses and counterexamples) -/

/-- A concrete login attempt used in the lost-update counterexample. -/
def sampleAttemptA : LoginAttempt where
  attempt_id := 1
  timestamp := 0
  username := "admin"
  user_id := some 1
  session_id := "sA"
  ip_address := "10.0.0.1"
  device_fingerprint := none
  user_agent := none
  password_length := 8
  remember_me := false
  attempt_status := .SUCCESS
  failure_reason := none

/-- A second, distinct concrete login attempt for the lost-update
counterexample. -/
def sampleAttemptB : LoginAttempt where
  attempt_id := 1
  timestamp := 0
  username := "user1"
  user_id := some 2
  session_id := "sB"
  ip_address := "10.0.0.2"
  device_fingerprint := none
  user_agent := none
  password_length := 11
  remember_me := false
  attempt_status := .FAILURE
  failure_reason := some "invalid_password"

/-- A concrete well-formed event input. -/
def sampleEvent (n : Nat) : EventInput where
  timestamp := some 5
  sessionId := "s" ++ toString n
  eventType := "click"
  eventData := none
  deviceInfo := none

/-- A concrete session, created first, active. -/
def sampleSession1 : Session where
  session_id := "shared"
  user_id := 1
  session_token := "tok1"
  device_fingerprint := none
  ip_address := "10.0.0.1"
  user_agent := none
  created_at := 0
  expires_at := 86400000
  is_active := true

/-- A concrete session reusing the same `session_id`, created later,
also active. -/
def sampleSession2 : Session where
  session_id := "shared"
  user_id := 2
  session_token := "tok2"
  device_fingerprint := none
  ip_address := "10.0.0.2"
  user_agent := none
  created_at := 1000
  expires_at := 86401000
  is_active := true

/-! ## Lemmas: reputation engine -/

/-- Updating an existing reputation record never changes its address. -/
theorem updateExisting_ip_address (r : ReputationRecord) (res : LoginResult)
    (now : Int) : (updateExisting r res now).ip_address = r.ip_address := by
  cases res <;> rfl

/-- A freshly created reputation record satisfies the invariant. -/
theorem repInvariant_freshReputation (ipAddress : String) (res : LoginResult)
    (now : Int) : repInvariant (freshReputation ipAddress res now) := by
  cases res <;> simp [repInvariant, freshReputation]

/-- `updateExisting` preserves the invariant. -/
theorem repInvariant_updateExisting {r : ReputationRecord} (res : LoginResult)
    (now : Int) (h : repInvariant r) : repInvariant (updateExisting r res now) := by
  obtain ⟨h1, h2, h3⟩ := h
  cases res <;> simp [repInvariant, updateExisting] <;> omega

/-- `updateIPReputation` preserves the invariant for every record. -/
theorem repInvariant_updateIPReputation (reps : List ReputationRecord)
    (ipAddress : String) (res : LoginResult) (now : Int)
    (hs : ∀ r ∈ reps, repInvariant r) :
    ∀ r ∈ updateIPReputation reps ipAddress res now, repInvariant r := by
  induction reps with
  | nil =>
      intro r hr
      simp only [updateIPReputation, List.mem_singleton] at hr
      exact hr ▸ repInvariant_freshReputation ipAddress res now
  | cons a rest ih =>
      intro r hr
      simp only [updateIPReputation] at hr
      by_cases ha : (a.ip_address == ipAddress) = true
      · rw [if_pos ha] at hr
        rcases List.mem_cons.mp hr with h | h
        · exact h ▸ repInvariant_updateExisting res now (hs a (List.mem_cons_self a rest))
        · exact hs r (List.mem_cons_of_mem a h)
      · rw [if_neg ha] at hr
        rcases List.mem_cons.mp hr with h | h
        · exact h ▸ hs a (List.mem_cons_self a rest)
        · exact ih (fun x hx => hs x (List.mem_cons_of_mem a hx)) r h

/-- Every record in the collection produced by a sequence of observations
satisfies the invariant (generalized over the starting collection). -/
theorem repInvariant_foldl (ipAddress : String) (obs : List (LoginResult × Int))
    (start : List ReputationRecord) (hs : ∀ r ∈ start, repInvariant r) :
    ∀ r ∈ obs.foldl
        (fun reps o => updateIPReputation reps ipAddress o.1 o.2) start,
      repInvariant r := by
  induction obs generalizing start with
  | nil => simpa using hs
  | cons o rest ih =>
      exact ih (updateIPReputation start ipAddress o.1 o.2)
        (repInvariant_updateIPReputation start ipAddress o.1 o.2 hs)

/-- Every record reachable by observations from the empty collection
satisfies the invariant. -/
theorem repInvariant_runObservations (ipAddress : String)
    (obs : List (LoginResult × Int)) :
    ∀ r ∈ runObservations ipAddress obs, repInvariant r :=
  repInvariant_foldl ipAddress obs [] (by simp)

/-- If the address already has a record, one more observation updates
exactly that record via `updateExisting`, and lookup still finds it. -/
theorem lookupIP_updateIPReputation (reps : List ReputationRecord)
    (ipAddress : String) (res : LoginResult) (now : Int) (r : ReputationRecord)
    (h : lookupIP reps ipAddress = some r) :
    lookupIP (updateIPReputation reps ipAddress res now) ipAddress =
      some (updateExisting r res now) := by
  induction reps with
  | nil => simp [lookupIP] at h
  | cons a rest ih =>
      cases hb : (a.ip_address == ipAddress) with
      | true =>
          have har : a = r := by
            simp only [lookupIP, List.find?_cons, hb] at h
            exact Option.some.inj h
          subst har
          have hb' : ((updateExisting a res now).ip_address == ipAddress) = true := by
            rw [updateExisting_ip_address]; exact hb
          simp [updateIPReputation, hb, lookupIP, List.find?_cons, hb']
      | false =>
          have h' : lookupIP rest ipAddress = some r := by
            simpa only [lookupIP, List.find?_cons, hb] using h
          have hres := ih h'
          simp only [lookupIP] at hres
          simp [updateIPReputation, hb, lookupIP, List.find?_cons, hres]

/-- C1: for every sequence of observations (success or failure) applied to
one source address starting from no record, every record the lookup can
see satisfies `total_logins = successful_logins + failed_logins` and
`reputation_score ∈ [0,100]`; and across one further observation, a
success never decreases the score and a failure never increases it. -/
theorem C1_reputation_invariant_and_monotonicity (ipAddress : String)
    (obs : List (LoginResult × Int)) :
    (∀ r, lookupIP (runObservations ipAddress obs) ipAddress = some r →
      repInvariant r) ∧
    (∀ (res : LoginResult) (now : Int) (r r' : ReputationRecord),
      lookupIP (runObservations ipAddress obs) ipAddress = some r →
      lookupIP (updateIPReputation (runObservations ipAddress obs) ipAddress
        res now) ipAddress = some r' →
      (res = .success → r.reputation_score ≤ r'.reputation_score) ∧
      (res = .failure → r'.reputation_score ≤ r.reputation_score)) := by
  constructor
  · intro r hr
    exact repInvariant_runObservations ipAddress obs r
      (List.mem_of_find?_eq_some hr)
  · intro res now r r' hr hr'
    have hinv : repInvariant r :=
      repInvariant_runObservations ipAddress obs r
        (List.mem_of_find?_eq_some hr)
    have hup := lookupIP_updateIPReputation _ ipAddress res now r hr
    rw [hup] at hr'
    obtain ⟨h1, h2, h3⟩ := hinv
    cases Option.some_injective _ hr'
    constructor
    · rintro rfl
      simp only [updateExisting]
      omega
    · rintro rfl
      simp only [updateExisting]
      omega

/-- Witness for C1 at a concrete input: one failure observation on address
"a" yields a record satisfying the invariant, and a following success
observation does not decrease its score. -/
theorem C1_witness :
    repInvariant (freshReputation "a" LoginResult.failure 0) ∧
    (freshReputation "a" LoginResult.failure 0).reputation_score ≤
      (updateExisting (freshReputation "a" LoginResult.failure 0)
        LoginResult.success 1).reputation_score := by
  constructor
  · exact (C1_reputation_invariant_and_monotonicity "a"
      [(LoginResult.failure, 0)]).1 _ (by decide)
  · exact ((C1_reputation_invariant_and_monotonicity "a"
      [(LoginResult.failure, 0)]).2 LoginResult.success 1 _ _ (by decide)
      (by decide)).1 rfl

/-! ## Lemmas: attempt ledger ids -/

/-- `maxAttemptId` over an append. -/
theorem maxAttemptId_append (l : List LoginAttempt) (a : LoginAttempt) :
    maxAttemptId (l ++ [a]) = max (maxAttemptId l) a.attempt_id := by
  simp [maxAttemptId, List.foldl_append]

/-- In every ledger state the program can produce, the maximum
`attempt_id` equals the length of the ledger. -/
theorem maxAttemptId_eq_length {l : List LoginAttempt}
    (h : ReachableAttempts l) : maxAttemptId l = l.length := by
  induction h with
  | nil => rfl
  | step username userId sessionId deviceInfo passwordLength rememberMe
      ipAddress now status failureReason hprev ih =>
      rw [recordAttempt, maxAttemptId_append, ih]
      simp [mkAttemptRecord]

/-- C4: on every ledger state the program can produce, recording a login
attempt assigns `attempt_id = maxAttemptId + 1` (in particular 1 on the
empty ledger) and appends the record at the end. -/
theorem C4_attempt_id_is_max_plus_one (l : List LoginAttempt)
    (h : ReachableAttempts l) (username : String) (userId : Option Nat)
    (sessionId : String) (deviceInfo : Option DeviceInfo)
    (passwordLength : Nat) (rememberMe : Bool) (ipAddress : String)
    (now : Int) (status : AttemptStatus) (failureReason : Option String) :
    (mkAttemptRecord l username userId sessionId deviceInfo passwordLength
        rememberMe ipAddress now status failureReason).attempt_id
      = maxAttemptId l + 1 ∧
    (l = [] →
      (mkAttemptRecord l username userId sessionId deviceInfo passwordLength
        rememberMe ipAddress now status failureReason).attempt_id = 1) ∧
    recordAttempt l username userId sessionId deviceInfo passwordLength
        rememberMe ipAddress now status failureReason
      = l ++ [mkAttemptRecord l username userId sessionId deviceInfo
          passwordLength rememberMe ipAddress now status failureReason] := by
  refine ⟨?_, ?_, rfl⟩
  · rw [maxAttemptId_eq_length h]
    rfl
  · intro hl
    subst hl
    rfl

/-- Witness for C4: after one recorded attempt, the next record gets
`attempt_id = maxAttemptId + 1`, and on the empty ledger it gets 1. -/
theorem C4_witness :
    (mkAttemptRecord
        (recordAttempt [] "admin" (some 1) "s1" none 8 false "10.0.0.1" 0
          AttemptStatus.SUCCESS none)
        "user1" (some 2) "s2" none 11 true "10.0.0.2" 5
        AttemptStatus.FAILURE (some "invalid_password")).attempt_id
      = maxAttemptId
          (recordAttempt [] "admin" (some 1) "s1" none 8 false "10.0.0.1" 0
            AttemptStatus.SUCCESS none) + 1 :=
  (C4_attempt_id_is_max_plus_one
    (recordAttempt [] "admin" (some 1) "s1" none 8 false "10.0.0.1" 0
      AttemptStatus.SUCCESS none)
    (ReachableAttempts.step "admin" (some 1) "s1" none 8 false "10.0.0.1" 0
      AttemptStatus.SUCCESS none ReachableAttempts.nil)
    "user1" (some 2) "s2" none 11 true "10.0.0.2" 5
    AttemptStatus.FAILURE (some "invalid_password")).1

/-! ## Lemmas: first observation for a new address -/

/-- If the address has no record, `updateIPReputation` appends a fresh
record at the end and leaves everything else unchanged. -/
theorem updateIPReputation_of_not_found (reps : List ReputationRecord)
    (ipAddress : String) (res : LoginResult) (now : Int)
    (h : lookupIP reps ipAddress = none) :
    updateIPReputation reps ipAddress res now
      = reps ++ [freshReputation ipAddress res now] := by
  induction reps with
  | nil => rfl
  | cons a rest ih =>
      have hb : (a.ip_address == ipAddress) = false := by
        cases hbb : (a.ip_address == ipAddress) with
        | true => simp [lookupIP, List.find?_cons, hbb] at h
        | false => rfl
      have h' : lookupIP rest ipAddress = none := by
        simpa [lookupIP, List.find?_cons, hb] using h
      simp [updateIPReputation, hb, ih h']

/-- C5: the first-ever observation for a source address creates exactly
the record the spec describes: one total login, score 95 on success and
90 on failure, counters split by the outcome, `suspicious_activities` 1
only on failure, not blocked, and `first_seen = last_seen`. -/
theorem C5_first_observation_record (reps : List ReputationRecord)
    (ipAddress : String) (res : LoginResult) (now : Int)
    (h : lookupIP reps ipAddress = none) :
    lookupIP (updateIPReputation reps ipAddress res now) ipAddress
      = some (freshReputation ipAddress res now) ∧
    (freshReputation ipAddress res now).total_logins = 1 ∧
    (freshReputation ipAddress res now).reputation_score
      = (if res = .success then 95 else 90) ∧
    (freshReputation ipAddress res now).successful_logins
      = (if res = .success then 1 else 0) ∧
    (freshReputation ipAddress res now).failed_logins
      = (if res = .success then 0 else 1) ∧
    (freshReputation ipAddress res now).suspicious_activities
      = (if res = .failure then 1 else 0) ∧
    (freshReputation ipAddress res now).is_blocked = false ∧
    (freshReputation ipAddress res now).first_seen
      = (freshReputation ipAddress res now).last_seen := by
  refine ⟨?_, rfl, rfl, rfl, rfl, ?_, rfl, rfl⟩
  · rw [updateIPReputation_of_not_found reps ipAddress res now h]
    simp only [lookupIP] at h ⊢
    rw [List.find?_append, h]
    simp [freshReputation]
  · cases res <;> rfl

/-- Witness for C5: a failure observation on an address never seen before
(concretely: empty collection) creates the score-90 record. -/
theorem C5_witness :
    lookupIP (updateIPReputation [] "10.0.0.9" LoginResult.failure 7) "10.0.0.9"
      = some (freshReputation "10.0.0.9" LoginResult.failure 7) ∧
    (freshReputation "10.0.0.9" LoginResult.failure 7).total_logins = 1 ∧
    (freshReputation "10.0.0.9" LoginResult.failure 7).reputation_score
      = (if LoginResult.failure = LoginResult.success then 95 else 90) ∧
    (freshReputation "10.0.0.9" LoginResult.failure 7).successful_logins
      = (if LoginResult.failure = LoginResult.success then 1 else 0) ∧
    (freshReputation "10.0.0.9" LoginResult.failure 7).failed_logins
      = (if LoginResult.failure = LoginResult.success then 0 else 1) ∧
    (freshReputation "10.0.0.9" LoginResult.failure 7).suspicious_activities
      = (if LoginResult.failure = LoginResult.failure then 1 else 0) ∧
    (freshReputation "10.0.0.9" LoginResult.failure 7).is_blocked = false ∧
    (freshReputation "10.0.0.9" LoginResult.failure 7).first_seen
      = (freshReputation "10.0.0.9" LoginResult.failure 7).last_seen :=
  C5_first_observation_record [] "10.0.0.9" LoginResult.failure 7 rfl

/-! ## Session lookup (C6) -/

/-- C6 counterexample: two active sessions share a `session_id` (a client
reused its correlation id across two logins).  The code's lookup returns
the earliest matching record, while the claim demands the most recently
created active one — a different record. -/
theorem C6_counterexample :
    findSession [sampleSession1, sampleSession2] "shared" = some sampleSession1 ∧
    findSessionSpecified [sampleSession1, sampleSession2] "shared"
      = some sampleSession2 ∧
    sampleSession1 ≠ sampleSession2 := by
  refine ⟨?_, ?_, ?_⟩ <;> decide

/-- C6 amended: the lookup returns the first (earliest-appended) record
whose `session_id` matches, regardless of `is_active`; it returns none
exactly when no record at all has that `session_id`. -/
theorem C6_lookup_returns_first_match (sessions : List Session)
    (sessionId : String) :
    findSession sessions sessionId
      = (sessions.filter (fun s => s.session_id == sessionId)).head? := by
  induction sessions with
  | nil => rfl
  | cons a rest ih =>
      cases hb : (a.session_id == sessionId) with
      | true => simp [findSession, List.find?_cons, hb, List.filter_cons]
      | false =>
          simp only [findSession, List.find?_cons, hb, List.filter_cons] at ih ⊢
          exact ih

/-! ## Analytics monotonicity (C7) -/

/-- A sublist has at most as many distinct elements. -/
theorem dedup_length_le_of_sublist {α : Type} [DecidableEq α]
    {l1 l2 : List α} (h : l1.Sublist l2) :
    l1.dedup.length ≤ l2.dedup.length := by
  have hsub : l1.toFinset ⊆ l2.toFinset := by
    intro a ha
    rw [List.mem_toFinset] at ha ⊢
    exact h.subset ha
  have hcard := Finset.card_le_card hsub
  rwa [List.card_toFinset, List.card_toFinset] at hcard

/-- The 1h time filter keeps a sublist of what the 24h filter keeps. -/
theorem recentAttempts_1h_sublist_24h (loginAttempts : List LoginAttempt)
    (now : Int) :
    (recentAttempts loginAttempts "1h" now).Sublist
      (recentAttempts loginAttempts "24h" now) := by
  apply List.monotone_filter_right
  intro a ha
  simp only [hoursAgoFor, decide_eq_true_eq] at ha ⊢
  norm_num at ha ⊢
  omega

/-- Buckets computed from a sublist of attempts are componentwise
smaller. -/
theorem bucketLe_of_sublist {l1 l2 : List LoginAttempt} (h : l1.Sublist l2)
    (status : AttemptStatus) : bucketLe (mkBucket l1 status) (mkBucket l2 status) := by
  have hf := h.filter (fun a => a.attempt_status == status)
  exact ⟨hf.length_le,
    dedup_length_le_of_sublist (hf.map (fun a => a.ip_address)),
    dedup_length_le_of_sublist (hf.map (fun a => a.username))⟩

/-- C7: for the same ledger and the same `now`, the attempts selected by
`stats("1h")` are a subset (a sublist) of those selected by
`stats("24h")`, and every count and unique-cardinality in each bucket of
the 1h stats is at most the corresponding 24h value. -/
theorem C7_stats_1h_within_24h (loginAttempts : List LoginAttempt) (now : Int) :
    (recentAttempts loginAttempts "1h" now).Sublist
      (recentAttempts loginAttempts "24h" now) ∧
    bucketLe (loginStats loginAttempts "1h" now).SUCCESS
      (loginStats loginAttempts "24h" now).SUCCESS ∧
    bucketLe (loginStats loginAttempts "1h" now).FAILURE
      (loginStats loginAttempts "24h" now).FAILURE := by
  have hsub := recentAttempts_1h_sublist_24h loginAttempts now
  exact ⟨hsub, bucketLe_of_sublist hsub .SUCCESS,
    bucketLe_of_sublist hsub .FAILURE⟩

/-! ## Batch processing counts (C8) -/

/-- The batch loop counts: starting from counters `lc`/`fc`, it adds one
to `loggedCount` per well-formed entry (each appended), one to
`failedCount` per malformed entry (each skipped), independently. -/
theorem batchLoop_counts (sessions : List Session) (ipAddress : String)
    (now : Int) (events : List (Option EventInput)) (eventLogs : List EventLog)
    (lc fc : Nat) :
    (batchLoop sessions ipAddress now events eventLogs lc fc).2.1
      = lc + events.countP Option.isSome ∧
    (batchLoop sessions ipAddress now events eventLogs lc fc).2.2
      = fc + events.countP Option.isNone ∧
    (batchLoop sessions ipAddress now events eventLogs lc fc).1.length
      = eventLogs.length + events.countP Option.isSome := by
  induction events generalizing eventLogs lc fc with
  | nil => simp [batchLoop]
  | cons e rest ih =>
      cases e with
      | none =>
          have h := ih eventLogs lc (fc + 1)
          simp only [batchLoop]
          simp only [List.countP_cons, Option.isSome_none, Option.isNone_none,
            if_true, if_false, decide_True, decide_False, cond_true, cond_false]
          refine ⟨?_, ?_, ?_⟩
          · rw [h.1]; rfl
          · rw [h.2.1]; omega
          · rw [h.2.2]; rfl
      | some x =>
          have h := ih (eventLogs ++
            [mkBatchLogEntry eventLogs lc sessions x ipAddress now]) (lc + 1) fc
          simp only [batchLoop]
          simp only [List.countP_cons, Option.isSome_some, Option.isNone_some,
            if_true, if_false, decide_True, decide_False, cond_true, cond_false]
          refine ⟨?_, ?_, ?_⟩
          · rw [h.1]; omega
          · rw [h.2.1]; rfl
          · rw [h.2.2]; simp; omega

/-- C8: batch entries are processed independently: `eventsLogged` is the
number of well-formed entries (each appended), `failedEvents` the number
of malformed ones (each skipped without aborting the rest), and the
ledger grows by exactly `eventsLogged`; in particular 3 valid entries
plus 1 malformed yield counts (3, 1) and ledger growth 3. -/
theorem C8_batch_counts_and_growth (sessions : List Session)
    (eventLogs : List EventLog) (events : List (Option EventInput))
    (ipAddress : String) (now : Int) :
    ((processBatch sessions eventLogs events ipAddress now).2.1
        = events.countP Option.isSome ∧
      (processBatch sessions eventLogs events ipAddress now).2.2
        = events.countP Option.isNone ∧
      (processBatch sessions eventLogs events ipAddress now).1.length
        = eventLogs.length
          + (processBatch sessions eventLogs events ipAddress now).2.1) ∧
    ((processBatch [] []
        [some (sampleEvent 1), some (sampleEvent 2), some (sampleEvent 3), none]
        "10.0.0.1" 0).2.1 = 3 ∧
      (processBatch [] []
        [some (sampleEvent 1), some (sampleEvent 2), some (sampleEvent 3), none]
        "10.0.0.1" 0).2.2 = 1 ∧
      (processBatch [] []
        [some (sampleEvent 1), some (sampleEvent 2), some (sampleEvent 3), none]
        "10.0.0.1" 0).1.length = 3) := by
  have h := batchLoop_counts sessions ipAddress now events eventLogs 0 0
  refine ⟨⟨?_, ?_, ?_⟩, by decide, by decide, by decide⟩
  · rw [(show processBatch sessions eventLogs events ipAddress now
      = batchLoop sessions ipAddress now events eventLogs 0 0 from rfl), h.1]
    omega
  · rw [(show processBatch sessions eventLogs events ipAddress now
      = batchLoop sessions ipAddress now events eventLogs 0 0 from rfl), h.2.1]
    omega
  · rw [(show processBatch sessions eventLogs events ipAddress now
      = batchLoop sessions ipAddress now events eventLogs 0 0 from rfl), h.2.2,
      h.1]
    omega

/-! ## Write failures (C9) -/

/-- C9 counterexample: with the underlying collection write failing
(`writeOk = false`, so `writeJSON` returned `false` and nothing was
persisted), the event handler still answers 201 'success' — not a
server-error indication. -/
theorem C9_counterexample :
    (logEventHandler [] [] (sampleEvent 1) "10.0.0.1" 0 false).1
      = ⟨201, "success"⟩ ∧
    (logEventHandler [] [] (sampleEvent 1) "10.0.0.1" 0 false).2 = [] ∧
    (⟨201, "success"⟩ : ApiResponse).httpStatus ≠ 500 := by
  refine ⟨rfl, rfl, by decide⟩

/-- C9 amended: `writeJSON` catches write errors and returns `false`, and
no caller inspects that result, so the handler's response is the same 201
'success' whether or not the write succeeded; only the persisted
collection differs. -/
theorem C9_response_ignores_write_result (sessions : List Session)
    (eventLogs : List EventLog) (e : EventInput) (ipAddress : String)
    (now : Int) (writeOk : Bool) :
    (logEventHandler sessions eventLogs e ipAddress now writeOk).1
      = ⟨201, "success"⟩ ∧
    (logEventHandler sessions eventLogs e ipAddress now writeOk).1
      = (logEventHandler sessions eventLogs e ipAddress now true).1 ∧
    (logEventHandler sessions eventLogs e ipAddress now false).2 = eventLogs ∧
    (logEventHandler sessions eventLogs e ipAddress now true).2
      = eventLogs ++ [mkSingleLogEntry eventLogs sessions e ipAddress now] := by
  exact ⟨rfl, rfl, rfl, rfl⟩

/-! ## Session lifetime (C10) -/

/-- C10: on a successful login the created session expires exactly 24
hours after its creation time; `rememberMe` is recorded on the attempt
record but the session pushed is the same for either value of
`rememberMe`. -/
theorem C10_session_expiry_ignores_rememberMe (users : List User)
    (loginAttempts : List LoginAttempt) (sessions : List Session)
    (ipReputations : List ReputationRecord) (username passwordArg : String)
    (deviceInfo : Option DeviceInfo) (sessionId : String) (rememberMe : Bool)
    (ipAddress : String) (now : Int) (sessionToken : String) (u : User)
    (hu : users.find? (fun x => x.username == username) = some u)
    (hp : u.password = passwordArg)
    (hn1 : username ≠ "") (hn2 : passwordArg ≠ "") :
    (loginHandler users loginAttempts sessions ipReputations username
        passwordArg deviceInfo sessionId rememberMe ipAddress now
        sessionToken).sessionCreated
      = some (mkSuccessSession u sessionId deviceInfo ipAddress now
          sessionToken) ∧
    (mkSuccessSession u sessionId deviceInfo ipAddress now
        sessionToken).expires_at
      = (mkSuccessSession u sessionId deviceInfo ipAddress now
          sessionToken).created_at + 24 * 60 * 60 * 1000 ∧
    (loginHandler users loginAttempts sessions ipReputations username
        passwordArg deviceInfo sessionId true ipAddress now
        sessionToken).sessionCreated
      = (loginHandler users loginAttempts sessions ipReputations username
          passwordArg deviceInfo sessionId false ipAddress now
          sessionToken).sessionCreated ∧
    (loginHandler users loginAttempts sessions ipReputations username
        passwordArg deviceInfo sessionId rememberMe ipAddress now
        sessionToken).loginAttempts
      = loginAttempts ++ [mkAttemptRecord loginAttempts username
          (some u.user_id) sessionId deviceInfo passwordArg.length rememberMe
          ipAddress now .SUCCESS none] := by
  have hcond : ¬(username = "" ∨ passwordArg = "") := by
    rintro (h | h)
    · exact hn1 h
    · exact hn2 h
  have hne : ¬u.password ≠ passwordArg := fun h => h hp
  constructor
  · simp only [loginHandler, if_neg hcond, hu, if_neg hne]
  constructor
  · rfl
  constructor
  · simp only [loginHandler, if_neg hcond, hu, if_neg hne]
  · simp only [loginHandler, if_neg hcond, hu, if_neg hne, recordAttempt]

/-- Witness for C10: the stock `admin`/`admin123` user on an otherwise
empty system. -/
theorem C10_witness :
    (loginHandler [⟨1, "admin", "admin123"⟩] [] [] [] "admin" "admin123"
        none "s1" true "10.0.0.1" 0 "tok").sessionCreated
      = some (mkSuccessSession ⟨1, "admin", "admin123"⟩ "s1" none "10.0.0.1" 0
          "tok") ∧
    (mkSuccessSession ⟨1, "admin", "admin123"⟩ "s1" none "10.0.0.1" 0
        "tok").expires_at
      = (mkSuccessSession ⟨1, "admin", "admin123"⟩ "s1" none "10.0.0.1" 0
          "tok").created_at + 24 * 60 * 60 * 1000 ∧
    (loginHandler [⟨1, "admin", "admin123"⟩] [] [] [] "admin" "admin123"
        none "s1" true "10.0.0.1" 0 "tok").sessionCreated
      = (loginHandler [⟨1, "admin", "admin123"⟩] [] [] [] "admin" "admin123"
          none "s1" false "10.0.0.1" 0 "tok").sessionCreated ∧
    (loginHandler [⟨1, "admin", "admin123"⟩] [] [] [] "admin" "admin123"
        none "s1" true "10.0.0.1" 0 "tok").loginAttempts
      = [] ++ [mkAttemptRecord [] "admin" (some 1) "s1" none
          ("admin123").length true "10.0.0.1" 0 .SUCCESS none] :=
  C10_session_expiry_ignores_rememberMe [⟨1, "admin", "admin123"⟩] [] [] []
    "admin" "admin123" none "s1" true "10.0.0.1" 0 "tok"
    ⟨1, "admin", "admin123"⟩ (by decide) rfl (by decide) (by decide)

/-! ## Lost update under concurrency (C2) -/

/-- C2: two concurrent append requests on the same collection, each doing
an unprotected read-modify-write, interleaved as read₁ read₂ write₁
write₂ starting from the empty collection: the final persisted collection
is just the second record — the first append is lost, so the collection
does not contain both records. -/
theorem C2_lost_update :
    runInterleaving ([] : List LoginAttempt) ⟨0, []⟩ ⟨0, []⟩ sampleAttemptA
        sampleAttemptB [true, false, true, false] = [sampleAttemptB] ∧
    sampleAttemptA ∉
      runInterleaving ([] : List LoginAttempt) ⟨0, []⟩ ⟨0, []⟩ sampleAttemptA
        sampleAttemptB [true, false, true, false] := by
  refine ⟨rfl, ?_⟩
  decide

/-! ## Batch log ids (C3) -/

/-- C3: against an empty event ledger (maximum `log_id` 0), a batch of two
well-formed events is assigned `log_id`s 1 and 3 — distinct, but not the
contiguous 1 and 2 the claim requires, because `eventLogs.length` grows
with each push while `loggedCount` is also added. -/
theorem C3_batch_ids_skip :
    ((processBatch [] [] [some (sampleEvent 1), some (sampleEvent 2)]
        "10.0.0.1" 0).1.map (fun l => l.log_id)) = [1, 3] ∧
    ((processBatch [] [] [some (sampleEvent 1), some (sampleEvent 2)]
        "10.0.0.1" 0).1.map (fun l => l.log_id)) ≠ [1, 2] := by
  refine ⟨?_, ?_⟩ <;> decide

end IntelliBank
